import Mathlib

/-!
Verification development for the AWS-GameServer-Ondemand repository.

The repository holds two AWS Lambda handlers written in Python:
* `src/lambda/lambda_function.py` ("ServiceAutoStarter"): reads REGION,
  CLUSTER, SERVICE (with defaults) and WEBHOOK from the environment at
  module import, raises `ValueError("Missing environment variables")` if
  REGION, CLUSTER or SERVICE is `None`, and on invocation reads the
  service's `desiredCount` and issues `update_service(desiredCount=1)`
  when it is zero.  It also holds an unreferenced `notifyDiscordWebhook`
  posting a fixed message to the WEBHOOK url.
* `src/notifier/lambda_sns_function.py` ("WebhookNotifier"): reads WEBHOOK
  at module import (raising if absent) and on invocation extracts
  `event['Records'][0]['Sns']['Message']`, POSTs `{"content": message}` to
  the parsed webhook host/path, and raises unless the response status is 204.

The Lambda runtime's effects are made explicit: each handler is a pure
function from its configuration, its inbound event and the responses of the
external services to the list of outbound requests it issues and an
`Except` value (`.error` models an uncaught Python exception).
-/

/-! ### JSON-like values

Models the Python values a Lambda event is made of (the result of JSON
deserialisation).  Subscripting a dict with a missing key (KeyError), a
list with an out-of-range index (IndexError), or a value of the wrong
shape (TypeError) are all uncaught lookup failures, modelled as `none`. -/

inductive JVal : Type where
  | jnull : JVal
  | jbool : Bool → JVal
  | jnum : Int → JVal
  | jstr : String → JVal
  | jarr : List JVal → JVal
  | jobj : List (String × JVal) → JVal

/-- Looks a key up in an association list (a Python dict with unique keys). -/
def jLookup (fields : List (String × JVal)) (k : String) : Option JVal :=
  match fields with
  | [] => none
  | (k2, v) :: rest => if k2 = k then some v else jLookup rest k

/-- Models `value[key]` for a string key: succeeds only on a dict holding
the key; any other shape raises (KeyError / TypeError), modelled as `none`. -/
def jGetField : JVal → String → Option JVal
  | .jobj fields, k => jLookup fields k
  | _, _ => none

/-- Models `value[i]` for an integer index on a list. -/
def jGetIndex : JVal → Nat → Option JVal
  | .jarr xs, i => xs.get? i
  | _, _ => none

/-! ### Substring containment

Used to state that an error message carries the status code and the
response body as substrings. -/

/-- Decides whether `pat` is an initial segment of `l`. -/
def startsWithL : List Char → List Char → Bool
  | [], _ => true
  | _ :: _, [] => false
  | p :: ps, c :: cs => p = c && startsWithL ps cs

/-- Decides whether `pat` occurs contiguously inside `l`. -/
def containsSub (pat : List Char) : List Char → Bool
  | [] => pat.isEmpty
  | c :: cs => startsWithL pat (c :: cs) || containsSub pat cs

/-- The string `pat` occurs contiguously inside the string `s`. -/
def strContains (s pat : String) : Bool :=
  containsSub pat.data s.data

/-! ### A model of `urllib.parse.urlparse`

Follows CPython's `urlsplit`: split a valid scheme off at the first `:`,
take the netloc after a leading `//` up to the first `/`, `?` or `#`,
split the fragment off at the first `#`, the query at the first `?`, and
(for `urlparse`) split `;params` off the last path segment. -/

/-- Splits a list at the first occurrence of `d`, dropping it; `none` when
`d` does not occur. -/
def splitFirst (d : Char) : List Char → Option (List Char × List Char)
  | [] => none
  | c :: cs =>
    if c = d then some ([], cs)
    else
      match splitFirst d cs with
      | none => none
      | some (a, b) => some (c :: a, b)

/-- Characters CPython allows in a url scheme after the leading letter. -/
def schemeChar (c : Char) : Bool :=
  c.isAlphanum || c = '+' || c = '-' || c = '.'

/-- CPython's validity test for the text before the first `:` to count as a
scheme: nonempty, starts with a letter, rest made of scheme characters. -/
def validScheme : List Char → Bool
  | [] => false
  | c :: cs => c.isAlpha && cs.all schemeChar

/-- Takes the netloc: everything up to the first `/`, `?` or `#`. -/
def splitNetloc : List Char → List Char × List Char
  | [] => ([], [])
  | c :: cs =>
    if c = '/' || c = '?' || c = '#' then ([], c :: cs)
    else
      let (a, b) := splitNetloc cs
      (c :: a, b)

/-- Splits a path into everything up to and including the last `/`, and the
last segment. -/
def lastSegSplit (l : List Char) : List Char × List Char :=
  let seg := (l.reverse.takeWhile (fun c => c ≠ '/')).reverse
  (l.take (l.length - seg.length), seg)

/-- CPython's `_splitparams`: split `;params` off the last path segment. -/
def splitParamsList (url : List Char) : List Char × List Char :=
  if url.contains '/' then
    let (pre, seg) := lastSegSplit url
    match splitFirst ';' seg with
    | none => (url, [])
    | some (a, b) => (pre ++ a, b)
  else
    match splitFirst ';' url with
    | none => (url, [])
    | some (a, b) => (a, b)

/-- The components of `urllib.parse.urlparse`'s result that the handlers
use, plus the ones the parse computes on the way. -/
structure URLParts where
  scheme : String
  netloc : String
  path : String
  params : String
  query : String
  fragment : String
deriving DecidableEq, Repr

/-- Models `urllib.parse.urlparse(url)` (CPython's `urlsplit` followed by
the params split). -/
def urlparse (url : String) : URLParts :=
  let l := url.data
  let (scheme, rest1) :=
    match splitFirst ':' l with
    | some (pre, post) =>
      if validScheme pre then (pre.map Char.toLower, post) else ([], l)
    | none => ([], l)
  let (netloc, rest2) :=
    match rest1 with
    | '/' :: '/' :: r => splitNetloc r
    | _ => ([], rest1)
  let (rest3, fragment) :=
    match splitFirst '#' rest2 with
    | some (a, b) => (a, b)
    | none => (rest2, [])
  let (rawPath, query) :=
    match splitFirst '?' rest3 with
    | some (a, b) => (a, b)
    | none => (rest3, [])
  let (path, params) := splitParamsList rawPath
  ⟨⟨scheme⟩, ⟨netloc⟩, ⟨path⟩, ⟨params⟩, ⟨query⟩, ⟨fragment⟩⟩

/-- The request target both handlers pass to `conn.request`:
`url.path + "?" + url.query`. -/
def requestTarget (u : URLParts) : String :=
  u.path ++ "?" ++ u.query

/-- Modelled from the spec: "at the parsed path and query string" — the
path-and-query of the url, with no separator when the query is empty.
Written from the spec's words for comparison with `requestTarget`. -/
def specRequestTarget (u : URLParts) : String :=
  if u.query = "" then u.path else u.path ++ "?" ++ u.query

/-! ### A model of `json.dumps({"content": message})`

Follows CPython's default encoder: `ensure_ascii=True`, item separator
`", "`, key separator `": "`.  Every character outside `0x20`–`0x7e` other
than the short-escape ones is emitted as a `\uXXXX` escape (a surrogate
pair above `0xffff`). -/

/-- One lowercase hex digit. -/
def hexDigit (n : Nat) : Char :=
  if n < 10 then Char.ofNat (48 + n) else Char.ofNat (87 + n)

/-- Four lowercase hex digits, as in CPython's `\uXXXX` escapes. -/
def hex4 (n : Nat) : List Char :=
  [hexDigit (n / 4096 % 16), hexDigit (n / 256 % 16), hexDigit (n / 16 % 16),
   hexDigit (n % 16)]

/-- The encoding of one character inside a JSON string literal. -/
def jsonEscapeChar (c : Char) : List Char :=
  let n := c.toNat
  if c = '"' then ['\\', '"']
  else if c = '\\' then ['\\', '\\']
  else if c = '\n' then ['\\', 'n']
  else if c = '\r' then ['\\', 'r']
  else if c = '\t' then ['\\', 't']
  else if n = 8 then ['\\', 'b']
  else if n = 12 then ['\\', 'f']
  else if n < 32 || 126 < n then
    if n ≤ 65535 then '\\' :: 'u' :: hex4 n
    else
      ('\\' :: 'u' :: hex4 (55296 + (n - 65536) / 1024)) ++
      ('\\' :: 'u' :: hex4 (56320 + (n - 65536) % 1024))
  else [c]

/-- The JSON string literal encoding `s`, quotes included. -/
def jsonEncodeString (s : String) : String :=
  ⟨'"' :: (s.data.map jsonEscapeChar).flatten ++ ['"']⟩

mutual

/-- Models `json.dumps(v)` with CPython's defaults for every JSON-derived
value: `ensure_ascii=True`, item separator `", "`, key separator `": "`. -/
def jsonDumps : JVal → String
  | .jnull => "null"
  | .jbool b => if b then "true" else "false"
  | .jnum n => toString n
  | .jstr s => jsonEncodeString s
  | .jarr xs => "[" ++ String.intercalate ", " (jsonDumpsList xs) ++ "]"
  | .jobj fs => "\x7b" ++ String.intercalate ", " (jsonDumpsFields fs) ++ "\x7d"

/-- The serialisations of the elements of a JSON array. -/
def jsonDumpsList : List JVal → List String
  | [] => []
  | v :: vs => jsonDumps v :: jsonDumpsList vs

/-- The serialisations of the fields of a JSON object. -/
def jsonDumpsFields : List (String × JVal) → List String
  | [] => []
  | (k, v) :: fs => (jsonEncodeString k ++ ": " ++ jsonDumps v) :: jsonDumpsFields fs

end

/-- Models `json.dumps({"content": message})` with CPython's defaults:
the object with the single field `content` carrying the extracted value
(the SNS contract delivers a string, but Python serialises any value
the event happens to hold there). -/
def jsonDumpsContent (message : JVal) : String :=
  "\x7b\"content\": " ++ jsonDumps message ++ "\x7d"

/-! ### HTTP effects

Outbound requests and the responses the webhook returns, made explicit. -/

/-- One outbound HTTPS request as issued through
`http.client.HTTPSConnection(host).request(method, target, body, headers)`. -/
structure HTTPRequest where
  host : String
  method : String
  target : String
  body : String
  headers : List (String × String)
deriving DecidableEq, Repr

/-- The webhook's response as the handlers observe it: `res.status` and
`res.read().decode()`. -/
structure HTTPResponse where
  status : Nat
  body : String
deriving DecidableEq, Repr

namespace Starter

/-! ### `src/lambda/lambda_function.py` (ServiceAutoStarter) -/

def DEFAULT_REGION : String := "us-west-2"
def DEFAULT_CLUSTER : String := "minecraft"
def DEFAULT_SERVICE : String := "minecraft-server"

/-- Models `os.environ.get(k, d)`: the environment's value when the
variable is set, the default otherwise; in Python the result is always a
string, never `None`, hence the `some`. -/
def envGetD (env : String → Option String) (k d : String) : Option String :=
  some ((env k).getD d)

/-- The module-level names of `lambda_function.py` after import. -/
structure AutoStarterConfig where
  REGION : String
  CLUSTER : String
  SERVICE : String
  WEBHOOK : Option String
deriving DecidableEq, Repr

/-- Module import of `lambda_function.py`: resolve REGION, CLUSTER,
SERVICE with defaults and WEBHOOK without one, then raise
`ValueError("Missing environment variables")` if REGION, CLUSTER or
SERVICE is `None`. -/
def autoStarterInit (env : String → Option String) :
    Except String AutoStarterConfig :=
  let region := envGetD env "REGION" DEFAULT_REGION
  let cluster := envGetD env "CLUSTER" DEFAULT_CLUSTER
  let service := envGetD env "SERVICE" DEFAULT_SERVICE
  let webhook := env "WEBHOOK"
  match region, cluster, service with
  | some r, some c, some s =>
    .ok { REGION := r, CLUSTER := c, SERVICE := s, WEBHOOK := webhook }
  | _, _, _ => .error "Missing environment variables"

/-- One entry of the `services` list in the `describe_services` response;
AWS reports `desiredCount` as a non-negative integer. -/
structure ServiceDesc where
  desiredCount : Nat
deriving DecidableEq, Repr

/-- The `describe_services` response, as far as the handler reads it. -/
structure DescribeResponse where
  services : List ServiceDesc
deriving DecidableEq, Repr

/-- One `update_service` call with its keyword arguments. -/
structure UpdateCall where
  cluster : String
  service : String
  desiredCount : Nat
deriving DecidableEq, Repr

/-- The observable effects of one `lambda_handler` invocation: the
`update_service` calls issued and the lines printed. -/
structure HandlerOutcome where
  updates : List UpdateCall
  logs : List String
deriving DecidableEq, Repr

/-- Models `lambda_handler(event, context)` given the `describe_services`
response the orchestration API returns: reads
`response["services"][0]["desiredCount"]` (an uncaught IndexError when the
list is empty), updates the desired count to 1 when it is 0, and prints
the corresponding line. -/
def lambda_handler (cfg : AutoStarterConfig) (response : DescribeResponse) :
    Except String HandlerOutcome :=
  match response.services with
  | [] => .error "IndexError: list index out of range"
  | svc :: _ =>
    let desired := svc.desiredCount
    if desired = 0 then
      .ok { updates := [{ cluster := cfg.CLUSTER, service := cfg.SERVICE,
                          desiredCount := 1 }],
            logs := ["Updated desiredCount to 1"] }
    else
      .ok { updates := [], logs := ["desiredCount already at 1"] }

/-- The request `lambda_function.py`'s unreferenced `notifyDiscordWebhook`
builds.  When WEBHOOK is `None` the function raises an uncaught TypeError
out of `urlparse(None)` / `HTTPSConnection` before any request is issued
(it never checks the value first). -/
def notifyRequest (webhook : Option String) : Except String HTTPRequest :=
  match webhook with
  | none => .error "TypeError: WEBHOOK is None"
  | some w =>
    let url := urlparse w
    .ok { host := url.netloc, method := "POST",
          target := requestTarget url,
          body := jsonDumpsContent (.jstr "attempting to Start Minecraft"),
          headers := [("Content-Type", "application/json")] }

/-- The response check at the end of `lambda_function.py`'s
`notifyDiscordWebhook`: raise unless the status is 204, with the status
and the decoded body in the message. -/
def checkResponse (res : HTTPResponse) : Except String Unit :=
  if res.status ≠ 204 then
    .error ("Request to Discord returned an error " ++ toString res.status ++
      ", the response is:\n" ++ res.body)
  else .ok ()

/-- One run of the unreferenced `notifyDiscordWebhook`: the requests it
issues and its outcome given the webhook's response. -/
def notifyRun (webhook : Option String) (res : HTTPResponse) :
    List HTTPRequest × Except String Unit :=
  match notifyRequest webhook with
  | .error e => ([], .error e)
  | .ok req => ([req], checkResponse res)

end Starter

namespace Notifier

/-! ### `src/notifier/lambda_sns_function.py` (WebhookNotifier) -/

/-- Module import of `lambda_sns_function.py`: read WEBHOOK, raising
`ValueError("Missing environment variables")` when it is `None`. -/
def notifierInit (env : String → Option String) : Except String String :=
  match env "WEBHOOK" with
  | none => .error "Missing environment variables"
  | some w => .ok w

/-- Models `event['Records'][0]['Sns']['Message']`: four lookups, each an
uncaught failure (`none`) when the event does not have the expected shape;
the value found under `Message` is returned whatever its shape, as Python's
subscripting does. -/
def extractMessage (event : JVal) : Option JVal :=
  match jGetField event "Records" with
  | none => none
  | some records =>
    match jGetIndex records 0 with
    | none => none
    | some r0 =>
      match jGetField r0 "Sns" with
      | none => none
      | some sns => jGetField sns "Message"

/-- The request `notifyDiscordWebhook(event, context)` builds: `none` when
the message lookup raises, in which case `conn.request` is never reached. -/
def notifierRequest (webhook : String) (event : JVal) : Option HTTPRequest :=
  let url := urlparse webhook
  match extractMessage event with
  | none => none
  | some message =>
    some { host := url.netloc, method := "POST",
           target := requestTarget url,
           body := jsonDumpsContent message,
           headers := [("Content-Type", "application/json")] }

/-- The response check at the end of `lambda_sns_function.py`'s
`notifyDiscordWebhook`: raise unless the status is 204, with the status
and the decoded body in the message. -/
def checkResponse (res : HTTPResponse) : Except String Unit :=
  if res.status ≠ 204 then
    .error ("Request to Discord returned an error " ++ toString res.status ++
      ", the response is:\n" ++ res.body)
  else .ok ()

/-- One `notifyDiscordWebhook(event, context)` invocation: the requests it
issues and its outcome given the webhook's response. -/
def notifierRun (webhook : String) (event : JVal) (res : HTTPResponse) :
    List HTTPRequest × Except String Unit :=
  match notifierRequest webhook event with
  | none => ([], .error "KeyError: the event lacks the expected shape")
  | some req => ([req], checkResponse res)

/-- The SNS event carrying `message`:
`{"Records": [{"Sns": {"Message": message}}]}`. -/
def snsEvent (message : String) : JVal :=
  .jobj [("Records", .jarr [.jobj [("Sns", .jobj [("Message", .jstr message)])]])]

end Notifier

/-! ### Concrete inputs used by witnesses and counterexamples -/

/-- The empty environment: no variable is set. -/
def envUnset : String → Option String := fun _ => none

/-- A representative webhook url with an empty query string. -/
def webhook0 : String := "https://discord.com/api/webhooks/123/abc"

/-- An SNS event carrying the message "hello" alongside the other fields a
real SNS delivery holds, to exercise that only the message field matters. -/
def snsEventExtra : JVal :=
  .jobj [("Records", .jarr [.jobj
            [("EventSource", .jstr "aws:sns"),
             ("Sns", .jobj [("Type", .jstr "Notification"),
                            ("Message", .jstr "hello"),
                            ("Subject", .jnull)])]]),
         ("extra", .jnum 7)]

/-! ### Helper lemmas on substring containment -/

theorem startsWithL_append (pat b : List Char) :
    startsWithL pat (pat ++ b) = true := by
  induction pat with
  | nil => rfl
  | cons p ps ih => simp [startsWithL, ih]

theorem containsSub_append_left (pat b : List Char) :
    containsSub pat (pat ++ b) = true := by
  cases pat with
  | nil =>
    cases b with
    | nil => rfl
    | cons c cs => simp [containsSub, startsWithL]
  | cons p ps =>
    simp only [containsSub, Bool.or_eq_true]
    exact Or.inl (by simpa using startsWithL_append (p :: ps) b)

theorem containsSub_append_of (pat a rest : List Char)
    (h : containsSub pat rest = true) : containsSub pat (a ++ rest) = true := by
  induction a with
  | nil => simpa using h
  | cons c a ih => simpa [containsSub] using Or.inr ih

theorem containsSub_self (pat : List Char) : containsSub pat pat = true := by
  simpa using containsSub_append_left pat []

theorem strContains_append_middle (a s b : String) :
    strContains (a ++ s ++ b) s = true := by
  unfold strContains
  have h : (a ++ s ++ b).data = a.data ++ (s.data ++ b.data) := by
    simp [String.data_append, List.append_assoc]
  rw [h]
  exact containsSub_append_of _ _ _ (containsSub_append_left _ _)

theorem strContains_append_right (a s : String) :
    strContains (a ++ s) s = true := by
  unfold strContains
  have h : (a ++ s).data = a.data ++ s.data := by simp [String.data_append]
  rw [h]
  exact containsSub_append_of _ _ _ (containsSub_self s.data)

/-! ### The claims -/

/-- C8: ServiceAutoStarter's startup configuration check can never fire:
REGION, CLUSTER and SERVICE are read with non-empty defaults, so the guard
of the startup ValueError is false for every environment and module
initialisation succeeds regardless of which variables are set. -/
theorem starter_init_always_succeeds (env : String → Option String) :
    Starter.autoStarterInit env =
      Except.ok { REGION := (env "REGION").getD Starter.DEFAULT_REGION,
                  CLUSTER := (env "CLUSTER").getD Starter.DEFAULT_CLUSTER,
                  SERVICE := (env "SERVICE").getD Starter.DEFAULT_SERVICE,
                  WEBHOOK := env "WEBHOOK" } := by
  rfl

/-- C1: when the orchestration API reports `desiredCount = 0` the handler
issues exactly one `update_service` call, with `desiredCount = 1`; when
the reported count is strictly positive it issues none. -/
theorem starter_update_iff_zero (cfg : Starter.AutoStarterConfig)
    (svc : Starter.ServiceDesc) (rest : List Starter.ServiceDesc) :
    (svc.desiredCount = 0 →
      Starter.lambda_handler cfg ⟨svc :: rest⟩ =
        Except.ok { updates := [{ cluster := cfg.CLUSTER, service := cfg.SERVICE,
                                  desiredCount := 1 }],
                    logs := ["Updated desiredCount to 1"] }) ∧
    (0 < svc.desiredCount →
      Starter.lambda_handler cfg ⟨svc :: rest⟩ =
        Except.ok { updates := [], logs := ["desiredCount already at 1"] }) := by
  constructor
  · intro h
    simp [Starter.lambda_handler, h]
  · intro h
    simp [Starter.lambda_handler, Nat.pos_iff_ne_zero.mp h]

/-- Witness for C1: a zero count yields the single update call, a count of
2 yields none. -/
theorem starter_update_iff_zero_witness :
    Starter.lambda_handler ⟨"us-west-2", "minecraft", "minecraft-server", none⟩
        ⟨[⟨0⟩]⟩ =
      Except.ok { updates := [⟨"minecraft", "minecraft-server", 1⟩],
                  logs := ["Updated desiredCount to 1"] } ∧
    Starter.lambda_handler ⟨"us-west-2", "minecraft", "minecraft-server", none⟩
        ⟨[⟨2⟩]⟩ =
      Except.ok { updates := [], logs := ["desiredCount already at 1"] } :=
  ⟨(starter_update_iff_zero ⟨"us-west-2", "minecraft", "minecraft-server", none⟩
      ⟨0⟩ []).1 rfl,
   (starter_update_iff_zero ⟨"us-west-2", "minecraft", "minecraft-server", none⟩
      ⟨2⟩ []).2 (by decide)⟩

/-- C9: for every strictly positive reported count the handler prints the
fixed line "desiredCount already at 1", whatever the actual count is. -/
theorem starter_log_fixed_when_positive (cfg : Starter.AutoStarterConfig)
    (svc : Starter.ServiceDesc) (rest : List Starter.ServiceDesc)
    (h : 0 < svc.desiredCount) :
    Starter.lambda_handler cfg ⟨svc :: rest⟩ =
      Except.ok { updates := [], logs := ["desiredCount already at 1"] } := by
  simp [Starter.lambda_handler, Nat.pos_iff_ne_zero.mp h]

/-- Witness for C9: with a reported count of 100 the printed line still
reads "desiredCount already at 1". -/
theorem starter_log_fixed_when_positive_witness :
    0 < (100 : Nat) ∧
    Starter.lambda_handler ⟨"us-west-2", "minecraft", "minecraft-server", none⟩
        ⟨[⟨100⟩]⟩ =
      Except.ok { updates := [], logs := ["desiredCount already at 1"] } :=
  ⟨by decide,
   starter_log_fixed_when_positive
     ⟨"us-west-2", "minecraft", "minecraft-server", none⟩ ⟨100⟩ [] (by decide)⟩

/-- C2 counterexample: with no environment variable set, WEBHOOK is unset,
yet ServiceAutoStarter's module initialisation succeeds — the claim that
both handlers fail at process start is false, since `lambda_function.py`'s
startup check never inspects WEBHOOK. -/
theorem webhook_unset_both_fail_cex :
    envUnset "WEBHOOK" = none ∧
    Starter.autoStarterInit envUnset =
      Except.ok { REGION := "us-west-2", CLUSTER := "minecraft",
                  SERVICE := "minecraft-server", WEBHOOK := none } ∧
    Notifier.notifierInit envUnset =
      Except.error "Missing environment variables" :=
  ⟨rfl, rfl, rfl⟩

/-- C2 amended: if WEBHOOK is unset, WebhookNotifier's process start fails
with the fatal configuration error, while ServiceAutoStarter's process
start nevertheless succeeds (its startup check does not inspect WEBHOOK). -/
theorem webhook_unset_only_notifier_fails (env : String → Option String)
    (h : env "WEBHOOK" = none) :
    Notifier.notifierInit env = Except.error "Missing environment variables" ∧
    Starter.autoStarterInit env =
      Except.ok { REGION := (env "REGION").getD Starter.DEFAULT_REGION,
                  CLUSTER := (env "CLUSTER").getD Starter.DEFAULT_CLUSTER,
                  SERVICE := (env "SERVICE").getD Starter.DEFAULT_SERVICE,
                  WEBHOOK := none } := by
  constructor
  · simp [Notifier.notifierInit, h]
  · simp [Starter.autoStarterInit, Starter.envGetD, h]

/-- Witness for the amended C2, on the empty environment. -/
theorem webhook_unset_only_notifier_fails_witness :
    envUnset "WEBHOOK" = none ∧
    (Notifier.notifierInit envUnset =
        Except.error "Missing environment variables" ∧
     Starter.autoStarterInit envUnset =
        Except.ok { REGION := "us-west-2", CLUSTER := "minecraft",
                    SERVICE := "minecraft-server", WEBHOOK := none }) :=
  ⟨rfl, webhook_unset_only_notifier_fails envUnset rfl⟩

/-- C3: once the message is extracted, the invocation completes without
error exactly when the webhook's response status is 204; for any other
status it raises an error whose text contains the status code and the
response body. -/
theorem notifier_status_check (webhook : String) (event : JVal) (v : JVal)
    (res : HTTPResponse) (hm : Notifier.extractMessage event = some v) :
    ((Notifier.notifierRun webhook event res).2 = Except.ok () ↔
      res.status = 204) ∧
    (res.status ≠ 204 →
      ∃ msg, (Notifier.notifierRun webhook event res).2 = Except.error msg ∧
        strContains msg (toString res.status) = true ∧
        strContains msg res.body = true) := by
  have hrun : Notifier.notifierRun webhook event res =
      ([{ host := (urlparse webhook).netloc, method := "POST",
          target := requestTarget (urlparse webhook),
          body := jsonDumpsContent v,
          headers := [("Content-Type", "application/json")] }],
       Notifier.checkResponse res) := by
    simp [Notifier.notifierRun, Notifier.notifierRequest, hm]
  rw [hrun]
  constructor
  · constructor
    · intro h
      by_contra hne
      simp [Notifier.checkResponse, hne] at h
    · intro h
      simp [Notifier.checkResponse, h]
  · intro hne
    refine ⟨"Request to Discord returned an error " ++ toString res.status ++
      ", the response is:\n" ++ res.body, ?_, ?_, ?_⟩
    · simp [Notifier.checkResponse, hne]
    · simpa [String.append_assoc] using
        strContains_append_middle "Request to Discord returned an error "
          (toString res.status) (", the response is:\n" ++ res.body)
    · exact strContains_append_right
        ("Request to Discord returned an error " ++ toString res.status ++
          ", the response is:\n") res.body

/-- Witness for C3: a 500 response with body "server error" makes the
invocation fail with an error containing "500" and "server error". -/
theorem notifier_status_check_witness :
    Notifier.extractMessage (Notifier.snsEvent "hello") = some (JVal.jstr "hello") ∧
    (500 : Nat) ≠ 204 ∧
    (∃ msg, (Notifier.notifierRun webhook0 (Notifier.snsEvent "hello")
        ⟨500, "server error"⟩).2 = Except.error msg ∧
      strContains msg (toString (500 : Nat)) = true ∧
      strContains msg "server error" = true) :=
  ⟨rfl, by decide,
   (notifier_status_check webhook0 (Notifier.snsEvent "hello") (JVal.jstr "hello")
      ⟨500, "server error"⟩ rfl).2 (by decide)⟩

/-- C4: on every inbound event whose first record carries the notification
message string `m`, the notifier issues the POST whose body is the JSON
encoding of the single-field object carrying `m`, with the JSON
content-type header, addressed to the configured webhook's parsed host and
target. -/
theorem notifier_post_shape (webhook m : String) (event : JVal)
    (hm : Notifier.extractMessage event = some (JVal.jstr m)) :
    Notifier.notifierRequest webhook event =
      some { host := (urlparse webhook).netloc, method := "POST",
             target := requestTarget (urlparse webhook),
             body := jsonDumpsContent (JVal.jstr m),
             headers := [("Content-Type", "application/json")] } := by
  simp [Notifier.notifierRequest, hm]

/-- Witness for C4: both the minimal event and one carrying the extra
fields of a real SNS delivery hold the message "hello" and yield the POST
with body `{"content": "hello"}`. -/
theorem notifier_post_shape_witness :
    (Notifier.extractMessage (Notifier.snsEvent "hello") =
        some (JVal.jstr "hello") ∧
     Notifier.notifierRequest webhook0 (Notifier.snsEvent "hello") =
       some { host := (urlparse webhook0).netloc, method := "POST",
              target := requestTarget (urlparse webhook0),
              body := jsonDumpsContent (JVal.jstr "hello"),
              headers := [("Content-Type", "application/json")] }) ∧
    (Notifier.extractMessage snsEventExtra = some (JVal.jstr "hello") ∧
     Notifier.notifierRequest webhook0 snsEventExtra =
       some { host := (urlparse webhook0).netloc, method := "POST",
              target := requestTarget (urlparse webhook0),
              body := jsonDumpsContent (JVal.jstr "hello"),
              headers := [("Content-Type", "application/json")] }) :=
  ⟨⟨rfl, notifier_post_shape webhook0 "hello" (Notifier.snsEvent "hello") rfl⟩,
   ⟨rfl, notifier_post_shape webhook0 "hello" snsEventExtra rfl⟩⟩

/-- C5: on every event on which the nested lookup
`event['Records'][0]['Sns']['Message']` fails — in particular any event
missing the `Records` field — the invocation fails with the uncaught
lookup error and no POST request is issued. -/
theorem notifier_malformed_event_no_post (webhook : String) (event : JVal)
    (res : HTTPResponse) (h : Notifier.extractMessage event = none) :
    (Notifier.notifierRun webhook event res).1 = [] ∧
    ∃ e, (Notifier.notifierRun webhook event res).2 = Except.error e := by
  have hreq : Notifier.notifierRequest webhook event = none := by
    simp [Notifier.notifierRequest, h]
  simp [Notifier.notifierRun, hreq]

/-- Witness for C5: an event missing `Records`, one with an empty record
list, and one whose first record lacks `Sns` each yield no request and an
error, whatever the webhook would have answered. -/
theorem notifier_malformed_event_no_post_witness :
    (Notifier.extractMessage (JVal.jobj []) = none ∧
     (Notifier.notifierRun webhook0 (JVal.jobj []) ⟨204, ""⟩).1 = [] ∧
     ∃ e, (Notifier.notifierRun webhook0 (JVal.jobj []) ⟨204, ""⟩).2 =
        Except.error e) ∧
    (Notifier.extractMessage (JVal.jobj [("Records", JVal.jarr [])]) = none ∧
     (Notifier.notifierRun webhook0 (JVal.jobj [("Records", JVal.jarr [])])
        ⟨204, ""⟩).1 = [] ∧
     ∃ e, (Notifier.notifierRun webhook0 (JVal.jobj [("Records", JVal.jarr [])])
        ⟨204, ""⟩).2 = Except.error e) ∧
    (Notifier.extractMessage
        (JVal.jobj [("Records", JVal.jarr [JVal.jobj []])]) = none ∧
     (Notifier.notifierRun webhook0
        (JVal.jobj [("Records", JVal.jarr [JVal.jobj []])]) ⟨204, ""⟩).1 = [] ∧
     ∃ e, (Notifier.notifierRun webhook0
        (JVal.jobj [("Records", JVal.jarr [JVal.jobj []])]) ⟨204, ""⟩).2 =
        Except.error e) :=
  ⟨⟨rfl, notifier_malformed_event_no_post webhook0 (JVal.jobj []) ⟨204, ""⟩ rfl⟩,
   ⟨rfl, notifier_malformed_event_no_post webhook0
      (JVal.jobj [("Records", JVal.jarr [])]) ⟨204, ""⟩ rfl⟩,
   ⟨rfl, notifier_malformed_event_no_post webhook0
      (JVal.jobj [("Records", JVal.jarr [JVal.jobj []])]) ⟨204, ""⟩ rfl⟩⟩

/-- C6 counterexample: on a webhook url with an empty query string the
issued request target is the path followed by a trailing `?`, which
differs from the parsed path-and-query of the url — the claim fails in
exactly the empty-query case it includes. -/
theorem notifier_target_spec_cex :
    (Notifier.notifierRequest webhook0 (Notifier.snsEvent "hello")).map
        (fun r => r.target) = some "/api/webhooks/123/abc?" ∧
    specRequestTarget (urlparse webhook0) = "/api/webhooks/123/abc" ∧
    ("/api/webhooks/123/abc?" : String) ≠ "/api/webhooks/123/abc" :=
  ⟨rfl, by decide, by decide⟩

/-- C6 amended: the POST is addressed to the host parsed from the
configured url, and its request target is the parsed path, a `?`, and the
parsed query string — so for a url with an empty query string the target
is the path followed by a trailing `?`, not the bare path. -/
theorem notifier_target_amended (webhook : String) (event : JVal) (v : JVal)
    (hm : Notifier.extractMessage event = some v) :
    ∃ req, Notifier.notifierRequest webhook event = some req ∧
      req.host = (urlparse webhook).netloc ∧
      req.target = (urlparse webhook).path ++ "?" ++ (urlparse webhook).query := by
  refine ⟨{ host := (urlparse webhook).netloc, method := "POST",
            target := requestTarget (urlparse webhook),
            body := jsonDumpsContent v,
            headers := [("Content-Type", "application/json")] }, ?_, rfl, rfl⟩
  simp [Notifier.notifierRequest, hm]

/-- Witness for the amended C6, on an empty-query webhook url. -/
theorem notifier_target_amended_witness :
    Notifier.extractMessage (Notifier.snsEvent "hello") =
      some (JVal.jstr "hello") ∧
    (∃ req, Notifier.notifierRequest webhook0 (Notifier.snsEvent "hello") =
        some req ∧
      req.host = (urlparse webhook0).netloc ∧
      req.target = (urlparse webhook0).path ++ "?" ++ (urlparse webhook0).query) :=
  ⟨rfl, notifier_target_amended webhook0 (Notifier.snsEvent "hello")
    (JVal.jstr "hello") rfl⟩

/-- C7: ServiceAutoStarter's unreferenced notifier builds the fixed
payload "attempting to Start Minecraft", follows the same 204-success
response check as WebhookNotifier, and with WEBHOOK absent fails with an
uncaught error, issuing no request, instead of validating the url's
presence first. -/
theorem starter_notify_dead_code (res : HTTPResponse) (w : String) :
    Starter.checkResponse res = Notifier.checkResponse res ∧
    Starter.notifyRequest (some w) =
      Except.ok { host := (urlparse w).netloc, method := "POST",
                  target := requestTarget (urlparse w),
                  body := jsonDumpsContent (.jstr "attempting to Start Minecraft"),
                  headers := [("Content-Type", "application/json")] } ∧
    Starter.notifyRun none res = ([], Except.error "TypeError: WEBHOOK is None") :=
  ⟨rfl, rfl, rfl⟩

/-- C10: the notifier's outbound request is a function of the configured
webhook url and the value at `Records[0].Sns.Message` alone — two events
agreeing there produce identical requests, whatever else they hold. -/
theorem notifier_depends_only_on_message (webhook : String) (e1 e2 : JVal)
    (v : JVal) (h1 : Notifier.extractMessage e1 = some v)
    (h2 : Notifier.extractMessage e2 = some v) :
    Notifier.notifierRequest webhook e1 = Notifier.notifierRequest webhook e2 := by
  simp [Notifier.notifierRequest, h1, h2]

/-- Witness for C10: the minimal event and one with the extra fields of a
real SNS delivery, both carrying "hello", produce the same request. -/
theorem notifier_depends_only_on_message_witness :
    Notifier.extractMessage (Notifier.snsEvent "hello") =
      some (JVal.jstr "hello") ∧
    Notifier.extractMessage snsEventExtra = some (JVal.jstr "hello") ∧
    Notifier.notifierRequest webhook0 (Notifier.snsEvent "hello") =
      Notifier.notifierRequest webhook0 snsEventExtra :=
  ⟨rfl, rfl,
   notifier_depends_only_on_message webhook0 (Notifier.snsEvent "hello")
     snsEventExtra (JVal.jstr "hello") rfl rfl⟩
